import Mathlib

/-!
Verification of the burnout-meter repository's core logic: the meter
builder (`src/meter.rs`, with the historical variant in `src/main.rs`)
and the week-window day computation (`src/app.rs`).

Modelling conventions:
* Rust `f64` arithmetic is embedded as exact rational arithmetic (`ℚ`).
  Every concrete input appearing in a theorem below is exactly
  representable in binary64 or far enough from each compared threshold
  that exact and `f64` evaluation agree on every comparison the code
  performs.
* Rust's saturating float-to-integer cast `f.floor() as u8` is modelled
  explicitly by `floorToU8`.
* The rendered meter string is modelled as a list of glyph cells
  (each emoji cell is one `Glyph`); string concatenation of repeated
  emoji becomes `List.replicate _ _ ++ List.replicate _ _`.
* The clock read in `days_since_monday` (`chrono::offset::Local::now()
  ... .weekday()`) becomes an explicit `Weekday` argument.
* Environment lookups in `Builder::new` (`BURNOUT_LIMIT`,
  `METER_LENGTH`) become explicit `Option` arguments with the source's
  defaults (`160`, `8`).
-/

namespace BurnoutMeter

/-- The five emoji cells a rendered meter can contain: the four fill
tiers 🟩 (low), 🟨 (mid), 🟧 (high), 🟥 (critical) and the blank ⬜️. -/
inductive Glyph where
  | green
  | yellow
  | orange
  | red
  | blank
deriving DecidableEq, Repr

/-- Rust `f.floor() as u8` for a finite `f : f64`, embedded over `ℚ`:
the floor, saturated into the `u8` range `[0, 255]` (`Int.toNat` sends
negative values to `0`). -/
def floorToU8 (x : ℚ) : ℕ :=
  (min 255 ⌊x⌋).toNat

/-- The sequential glyph re-assignments of `create_meter`
(`src/meter.rs` lines 89–101): start from 🟩, overwrite with 🟨 when
`percentage > 0.45`, with 🟧 when `percentage > 0.7`, with 🟥 when
`percentage > 0.94`. -/
def selectEmoji (percentage : ℚ) : Glyph :=
  let emoji := Glyph.green
  let emoji := if percentage > 45/100 then Glyph.yellow else emoji
  let emoji := if percentage > 7/10 then Glyph.orange else emoji
  let emoji := if percentage > 94/100 then Glyph.red else emoji
  emoji

/-- The fill-count computation of `create_meter` (`src/meter.rs` lines
72–85), factored out of the rendering for reuse in statements: `hours`,
`remainder`, `percentage`, the floored-and-cast `filled`, the
length-gated rounding bonus, and the final clamp to `length`. -/
def meterFilled (current max : ℚ) (length : ℕ) : ℕ :=
  let hours : ℚ := ⌊current⌋
  let remainder := current - hours
  let percentage := current / max
  let filled := floorToU8 (percentage * length)
  let filled :=
    if remainder > 1/2 ∧ 10 ≤ length ∧ filled < length then filled + 1
    else filled
  if filled > length then length else filled

/-- `Builder::create_meter` from `src/meter.rs` lines 65–108 (identical
to `util::create_meter` in `src/util.rs`): fails when `current` is
`None`; otherwise emits `filled` copies of the selected emoji (the fill
count per `meterFilled`) followed by `empty = length - filled` blanks. -/
def create_meter (current : Option ℚ) (max : ℚ) (length : ℕ) :
    Except String (List Glyph) :=
  match current with
  | none => .error "No current value"
  | some current =>
    let filled := meterFilled current max length
    let empty := length - filled
    let emoji := selectEmoji (current / max)
    .ok (List.replicate filled emoji ++ List.replicate empty Glyph.blank)

/-- The fill count of the `src/main.rs` variant (lines 182–189): same
floor, cast and bonus as `meterFilled`, but with no final clamp. -/
def mainFilled (current max : ℚ) (length : ℕ) : ℕ :=
  let hours : ℚ := ⌊current⌋
  let remainder := current - hours
  let percentage := current / max
  let filled := floorToU8 (percentage * length)
  if remainder > 1/2 ∧ 10 ≤ length ∧ filled < length then filled + 1
  else filled

/-- The historical variant `create_meter` from `src/main.rs` lines
173–212: renders an all-blank meter when `current` is `None` instead of
failing, and has no clamp of `filled` to `length` (for `filled > length`
the Rust `length - filled` on `u8` would panic in a debug build; the
truncated `ℕ` subtraction here is only relied on where
`filled ≤ length`). -/
def createMeterMain (current : Option ℚ) (max : ℚ) (length : ℕ) :
    Except String (List Glyph) :=
  match current with
  | none => .ok (List.replicate length Glyph.blank)
  | some current =>
    let filled := mainFilled current max length
    let empty := length - filled
    let emoji := selectEmoji (current / max)
    .ok (List.replicate filled emoji ++ List.replicate empty Glyph.blank)

/-- `chrono::Weekday`. -/
inductive Weekday where
  | mon
  | tue
  | wed
  | thu
  | fri
  | sat
  | sun
deriving DecidableEq, Repr

/-- `days_since_monday` from `src/app.rs` lines 31–43: the weekday
obtained from the local clock is the explicit argument, and the match
maps it to `1, …, 7`. -/
def days_since_monday (today : Weekday) : ℤ :=
  match today with
  | .mon => 1
  | .tue => 2
  | .wed => 3
  | .thu => 4
  | .fri => 5
  | .sat => 6
  | .sun => 7

/-- chrono's `num_days_from_monday`: the 0-based distance of a weekday
from Monday (Mon = 0, …, Sun = 6), used to state what "1-based distance
from Monday" means. -/
def numDaysFromMonday (w : Weekday) : ℤ :=
  match w with
  | .mon => 0
  | .tue => 1
  | .wed => 2
  | .thu => 3
  | .fri => 4
  | .sat => 5
  | .sun => 6

/-- The meter builder state from `src/meter.rs` lines 19–25: the three
configuration fields plus the cached rendered meter. -/
structure Builder where
  current : Option ℚ
  max : ℚ
  length : ℕ
  meter : List Glyph
deriving DecidableEq, Repr

namespace Builder

/-- `Builder::new` from `src/meter.rs` lines 28–42.  The two
environment reads are explicit arguments (`none` models an unset or
unparsable variable, with the source defaults `160` and `8`).  The
source panics when the initial render fails; since `current` is
`some 0` that path is unreachable, and the model returns `[]` there. -/
def new (burnoutLimitEnv : Option ℚ) (meterLengthEnv : Option ℕ) :
    Builder :=
  let current : Option ℚ := some 0
  let max := burnoutLimitEnv.getD 160
  let length := meterLengthEnv.getD 8
  let meter :=
    match create_meter current max length with
    | .ok m => m
    | .error _ => []
  { current := current, max := max, length := length, meter := meter }

/-- `Builder::build` from `src/meter.rs` lines 45–49, as the returned
`Result`: on success the builder with the re-rendered meter, on failure
the propagated error. -/
def build (b : Builder) : Except String Builder :=
  (create_meter b.current b.max b.length).map
    (fun m => { b with meter := m })

/-- The state of `self` after `Builder::build` returns: the `?` on
`create_meter` returns before the assignment to `self.meter`, so on
failure the builder is unchanged. -/
def buildState (b : Builder) : Builder :=
  match create_meter b.current b.max b.length with
  | .ok m => { b with meter := m }
  | .error _ => b

/-- `Builder::set_current` from `src/meter.rs` lines 111–115. -/
def set_current (b : Builder) (v : ℚ) : Builder :=
  { b with current := some v }

/-- `Builder::set_max` from `src/meter.rs` lines 118–122. -/
def set_max (b : Builder) (v : ℚ) : Builder :=
  { b with max := v }

/-- `Builder::set_length` from `src/meter.rs` lines 125–129. -/
def set_length (b : Builder) (v : ℕ) : Builder :=
  { b with length := v }

end Builder

/-- One setter call on the builder, for stating frame properties about
arbitrary sequences of `set_*` calls. -/
inductive SetOp where
  | setCurrent (v : ℚ)
  | setMax (v : ℚ)
  | setLength (v : ℕ)

/-- Apply one setter call. -/
def applySet (b : Builder) (op : SetOp) : Builder :=
  match op with
  | .setCurrent v => b.set_current v
  | .setMax v => b.set_max v
  | .setLength v => b.set_length v

/-- The number of filled (non-blank) cells in a rendered meter. -/
def filledCells (r : List Glyph) : ℕ :=
  (r.filter (fun g => decide (g ≠ Glyph.blank))).length

/-! ### Helper lemmas -/

lemma create_meter_some (c M : ℚ) (L : ℕ) :
    create_meter (some c) M L =
      .ok (List.replicate (meterFilled c M L) (selectEmoji (c / M)) ++
           List.replicate (L - meterFilled c M L) Glyph.blank) := rfl

lemma selectEmoji_ne_blank (p : ℚ) : selectEmoji p ≠ Glyph.blank := by
  simp only [selectEmoji]
  split_ifs <;> simp

lemma meterFilled_le (c M : ℚ) (L : ℕ) : meterFilled c M L ≤ L := by
  simp only [meterFilled]
  split_ifs <;> omega

lemma filledCells_replicate_append (n m : ℕ) (g : Glyph)
    (hg : g ≠ Glyph.blank) :
    filledCells (List.replicate n g ++ List.replicate m Glyph.blank) = n := by
  simp [filledCells, List.filter_append, List.filter_replicate, hg]

lemma floor_155_div_170_mul_8 : ⌊(155 : ℚ) / 170 * 8⌋ = 7 := by
  rw [Int.floor_eq_iff]
  norm_num

lemma meterFilled_155 : meterFilled 155 170 8 = 7 := by
  simp [meterFilled, floorToU8, floor_155_div_170_mul_8]

lemma selectEmoji_155 : selectEmoji ((155 : ℚ) / 170) = Glyph.orange := by
  simp only [selectEmoji]
  rw [if_neg (by norm_num), if_pos (by norm_num)]

lemma meter_155 :
    create_meter (some 155) 170 8 =
      .ok (List.replicate 7 Glyph.orange ++ List.replicate 1 Glyph.blank) := by
  rw [create_meter_some, meterFilled_155, selectEmoji_155]

lemma selectEmoji_low {p : ℚ} (h : p ≤ 45/100) :
    selectEmoji p = Glyph.green := by
  simp only [selectEmoji]
  rw [if_neg (not_lt.mpr (by linarith)), if_neg (not_lt.mpr (by linarith)),
    if_neg (not_lt.mpr h)]

lemma selectEmoji_mid {p : ℚ} (h₁ : 45/100 < p) (h₂ : p ≤ 7/10) :
    selectEmoji p = Glyph.yellow := by
  simp only [selectEmoji]
  rw [if_neg (not_lt.mpr (by linarith)), if_neg (not_lt.mpr h₂), if_pos h₁]

lemma selectEmoji_high {p : ℚ} (h₁ : 7/10 < p) (h₂ : p ≤ 94/100) :
    selectEmoji p = Glyph.orange := by
  simp only [selectEmoji]
  rw [if_neg (not_lt.mpr h₂), if_pos h₁]

lemma selectEmoji_critical {p : ℚ} (h : 94/100 < p) :
    selectEmoji p = Glyph.red := by
  simp only [selectEmoji]
  rw [if_pos h]

lemma applySet_meter (b : Builder) (op : SetOp) :
    (applySet b op).meter = b.meter := by
  cases op <;> rfl

/-! ### The claims -/

/-- C1: for every valid input (`current = Some c`, maximum `M > 0`,
length `L ≥ 1`), `create_meter` returns a meter of exactly `L` glyph
cells — some number of filled cells followed by blank cells totalling
`L` — even when `percentage > 1` would make the unclamped fill count
exceed `L`. -/
theorem claim_C1_rendered_length (c M : ℚ) (L : ℕ) (hM : 0 < M)
    (hL : 1 ≤ L) :
    ∃ r, create_meter (some c) M L = .ok r ∧ r.length = L ∧
      ∃ n, n ≤ L ∧
        r = List.replicate n (selectEmoji (c / M)) ++
            List.replicate (L - n) Glyph.blank := by
  refine ⟨_, create_meter_some c M L, ?_,
    meterFilled c M L, meterFilled_le c M L, rfl⟩
  have h := meterFilled_le c M L
  simp only [List.length_append, List.length_replicate]
  omega

/-- Witness for C1: at `current = 20, maximum = 10, length = 8` the
unclamped fill count (`⌊2 * 8⌋ = 16`) exceeds the length, yet the
rendered meter still has exactly 8 cells. -/
theorem claim_C1_rendered_length_witness :
    ∃ r, create_meter (some 20) 10 8 = .ok r ∧ r.length = 8 ∧
      ∃ n, n ≤ 8 ∧
        r = List.replicate n (selectEmoji ((20 : ℚ) / 10)) ++
            List.replicate (8 - n) Glyph.blank :=
  claim_C1_rendered_length 20 10 8 (by norm_num) (by norm_num)

/-- C2 counterexample: at `current = 155, maximum = 170, length = 8`
the rendered meter is NOT 7 critical-tier (red) cells plus one blank —
the percentage `155/170 ≈ 0.9118` does not exceed `0.94`, so the
critical tier is not selected. -/
theorem claim_C2_counterexample :
    create_meter (some 155) 170 8 ≠
      .ok (List.replicate 7 Glyph.red ++ List.replicate 1 Glyph.blank) := by
  rw [meter_155]
  intro h
  exact absurd (Except.ok.inj h) (by decide)

/-- C2 amended: at `current = 155, maximum = 170, length = 8` the meter
is 7 high-tier (orange) cells followed by 1 blank cell, since
`percentage = 155/170 ≈ 0.9118` lies in `(0.70, 0.94]`. -/
theorem claim_C2_amended_tier_high :
    create_meter (some 155) 170 8 =
      .ok (List.replicate 7 Glyph.orange ++ List.replicate 1 Glyph.blank) :=
  meter_155

/-- C3: for `current = Some c` and `maximum M > 0` the fill glyph is
selected from `percentage = c / M` with inclusive-low / exclusive-high
bands: `p ≤ 0.45 →` low, `0.45 < p ≤ 0.70 →` mid, `0.70 < p ≤ 0.94 →`
high, `0.94 < p →` critical; the first conjunct ties the selected glyph
to the cells `create_meter` emits. -/
theorem claim_C3_tier_thresholds (c M : ℚ) (hM : 0 < M) :
    (∀ L, create_meter (some c) M L =
        .ok (List.replicate (meterFilled c M L) (selectEmoji (c / M)) ++
             List.replicate (L - meterFilled c M L) Glyph.blank)) ∧
    (c / M ≤ 45/100 → selectEmoji (c / M) = Glyph.green) ∧
    (45/100 < c / M → c / M ≤ 7/10 → selectEmoji (c / M) = Glyph.yellow) ∧
    (7/10 < c / M → c / M ≤ 94/100 → selectEmoji (c / M) = Glyph.orange) ∧
    (94/100 < c / M → selectEmoji (c / M) = Glyph.red) :=
  ⟨fun L => create_meter_some c M L,
   fun h => selectEmoji_low h,
   fun h₁ h₂ => selectEmoji_mid h₁ h₂,
   fun h₁ h₂ => selectEmoji_high h₁ h₂,
   fun h => selectEmoji_critical h⟩

/-- Witness for C3: percentage exactly `0.45` selects the low tier and
percentage `0.450001` selects the mid tier. -/
theorem claim_C3_tier_thresholds_witness :
    selectEmoji ((45 : ℚ) / 100) = Glyph.green ∧
    selectEmoji ((450001 : ℚ) / 1000000) = Glyph.yellow :=
  ⟨(claim_C3_tier_thresholds 45 100 (by norm_num)).2.1 (by norm_num),
   (claim_C3_tier_thresholds 450001 1000000 (by norm_num)).2.2.1
     (by norm_num) (by norm_num)⟩

/-- C4: the number of filled cells is `⌊(c / M) * L⌋`, incremented by
exactly one iff the fractional part of the raw `current` (not of the
percentage) exceeds `0.5`, the length is at least `10`, and the floored
count is below `L`.  Hypotheses restrict to the regime the claim speaks
of: nonnegative measurement, positive maximum, `u8` length, and a
floored count not already above `L` (where the clamp, claim C1, takes
over). -/
theorem claim_C4_fill_rounding (c M : ℚ) (L : ℕ) (hc : 0 ≤ c)
    (hM : 0 < M) (hL : L ≤ 255) (hfl : ⌊c / M * (L : ℚ)⌋ ≤ (L : ℤ)) :
    ∃ r, create_meter (some c) M L = .ok r ∧
      filledCells r =
        (⌊c / M * (L : ℚ)⌋).toNat +
          (if c - (⌊c⌋ : ℚ) > 1/2 ∧ 10 ≤ L ∧
              (⌊c / M * (L : ℚ)⌋).toNat < L
           then 1 else 0) := by
  have hp : (0 : ℚ) ≤ c / M := div_nonneg hc hM.le
  have h0 : (0 : ℤ) ≤ ⌊c / M * (L : ℚ)⌋ :=
    Int.floor_nonneg.mpr (mul_nonneg hp (by positivity))
  have hraw : floorToU8 (c / M * (L : ℚ)) = (⌊c / M * (L : ℚ)⌋).toNat := by
    simp only [floorToU8]
    rw [min_eq_right (le_trans hfl (by exact_mod_cast hL))]
  have hFle : (⌊c / M * (L : ℚ)⌋).toNat ≤ L := Int.toNat_le.mpr hfl
  refine ⟨_, create_meter_some c M L, ?_⟩
  rw [filledCells_replicate_append _ _ _ (selectEmoji_ne_blank _)]
  simp only [meterFilled, hraw]
  by_cases hb : c - (⌊c⌋ : ℚ) > 1/2 ∧ 10 ≤ L ∧
      (⌊c / M * (L : ℚ)⌋).toNat < L
  · rw [if_pos hb, if_pos hb, if_neg (by omega)]
  · rw [if_neg hb, if_neg hb, if_neg (by omega)]
    omega

/-- Witness for C4: at `current = 5.6, maximum = 10, length = 10` the
bonus applies (`0.6 > 0.5`, `length ≥ 10`) and 6 cells are filled; at
`current = 5.6, maximum = 10, length = 5` no bonus applies and 2 cells
are filled, exactly the floor. -/
theorem claim_C4_fill_rounding_witness :
    (∃ r, create_meter (some (56/10)) 10 10 = .ok r ∧ filledCells r = 6) ∧
    (∃ r, create_meter (some (56/10)) 10 5 = .ok r ∧ filledCells r = 2) := by
  have hfr : ⌊(56 : ℚ) / 10⌋ = 5 := by
    rw [Int.floor_eq_iff]
    norm_num
  constructor
  · have h5 : ⌊(56 : ℚ) / 10 / 10 * ((10 : ℕ) : ℚ)⌋ = 5 := by
      push_cast
      rw [Int.floor_eq_iff]
      norm_num
    obtain ⟨r, hr, hcount⟩ :=
      claim_C4_fill_rounding (56/10) 10 10 (by norm_num) (by norm_num)
        (by norm_num) (by rw [h5]; norm_num)
    refine ⟨r, hr, ?_⟩
    rw [hcount, h5, hfr]
    norm_num
    decide
  · have h2 : ⌊(56 : ℚ) / 10 / 10 * ((5 : ℕ) : ℚ)⌋ = 2 := by
      push_cast
      rw [Int.floor_eq_iff]
      norm_num
    obtain ⟨r, hr, hcount⟩ :=
      claim_C4_fill_rounding (56/10) 10 5 (by norm_num) (by norm_num)
        (by norm_num) (by rw [h2]; norm_num)
    refine ⟨r, hr, ?_⟩
    rw [hcount, h2, hfr]
    norm_num
    decide

/-- C5: for every maximum and length, `create_meter` with
`current = None` fails with the missing-measurement error rather than
returning a rendered meter; in particular at maximum `10`, length `8`. -/
theorem claim_C5_none_fails (M : ℚ) (L : ℕ) :
    create_meter none M L = .error "No current value" := rfl

/-- C6 counterexample: `create_meter` does NOT fail on `maximum ≤ 0`
nor on `length = 0`: with `current = Some 5, maximum = -1, length = 8`
it returns `Ok` (an all-blank meter), and with
`current = Some 5, maximum = 10, length = 0` it returns `Ok` of the
empty meter — no `InvalidConfiguration` error exists in the code. -/
theorem claim_C6_counterexample :
    create_meter (some 5) (-1) 8 = .ok (List.replicate 8 Glyph.blank) ∧
    create_meter (some 5) 10 0 = .ok [] := by
  have hf5 : ⌊(5 : ℚ)⌋ = 5 := by
    rw [Int.floor_eq_iff]
    norm_num
  constructor
  · have hfneg : ⌊(5 : ℚ) / (-1) * 8⌋ = -40 := by
      rw [Int.floor_eq_iff]
      norm_num
    have hfill : meterFilled 5 (-1) 8 = 0 := by
      simp only [meterFilled, floorToU8, hfneg, hf5]
      norm_num
    have hsel : selectEmoji ((5 : ℚ) / (-1)) = Glyph.green :=
      selectEmoji_low (by norm_num)
    rw [create_meter_some, hfill, hsel]
    simp
  · have hf0 : ⌊(5 : ℚ) / 10 * (0 : ℚ)⌋ = 0 := by
      rw [Int.floor_eq_iff]
      norm_num
    have hfill : meterFilled 5 10 0 = 0 := by
      simp only [meterFilled, floorToU8, hf0, hf5]
      norm_num
    rw [create_meter_some, hfill]
    simp

/-- C6 amended: `create_meter` performs no validation of `maximum` or
`length`: whenever a current value is supplied it returns `Ok`
(`maximum ≤ 0` and `length = 0` included); the only failure is a
missing measurement. -/
theorem claim_C6_amended_no_validation (c M : ℚ) (L : ℕ) :
    ∃ r, create_meter (some c) M L = .ok r :=
  ⟨_, create_meter_some c M L⟩

/-- C7: `days_since_monday` always returns a value in `[1, 7]`, equal
to the 1-based distance of the current weekday from Monday, with
exactly `1` on Monday and `7` on Sunday, as a deterministic function of
the weekday read from the clock. -/
theorem claim_C7_days_since_monday :
    (∀ w, 1 ≤ days_since_monday w ∧ days_since_monday w ≤ 7 ∧
       days_since_monday w = numDaysFromMonday w + 1) ∧
    days_since_monday .mon = 1 ∧ days_since_monday .sun = 7 := by
  refine ⟨fun w => ?_, rfl, rfl⟩
  cases w <;> simp [days_since_monday, numDaysFromMonday]

/-- C8: when `build()` fails validation (`create_meter` returns an
error), the builder — in particular its cached rendered meter — is left
unchanged, still holding the last successful render. -/
theorem claim_C8_failed_build_keeps_cache (b : Builder) (e : String)
    (h : create_meter b.current b.max b.length = .error e) :
    b.buildState = b ∧ b.buildState.meter = b.meter := by
  have hb : b.buildState = b := by
    simp [Builder.buildState, h]
  exact ⟨hb, by rw [hb]⟩

/-- Witness for C8: a builder whose current value is `None` (so that
`build()` fails) keeps its previously rendered all-blank meter. -/
theorem claim_C8_failed_build_keeps_cache_witness :
    (⟨none, 10, 8, List.replicate 8 Glyph.blank⟩ : Builder).buildState =
      (⟨none, 10, 8, List.replicate 8 Glyph.blank⟩ : Builder) ∧
    (⟨none, 10, 8, List.replicate 8 Glyph.blank⟩ : Builder).buildState.meter =
      (⟨none, 10, 8, List.replicate 8 Glyph.blank⟩ : Builder).meter :=
  claim_C8_failed_build_keeps_cache _ "No current value" rfl

/-- C9 counterexample: a freshly constructed builder does NOT have
`current = None` — `Builder::new` sets `current = Some 0` (here with
both environment variables unset, though the values are irrelevant). -/
theorem claim_C9_counterexample :
    (Builder.new none none).current = some 0 ∧
    (Builder.new none none).current ≠ none :=
  ⟨rfl, by simp [Builder.new]⟩

/-- C9 amended: a freshly constructed builder has `current = Some 0.0`
(not `None`), whatever the environment supplies for the limit and
length — `new()` supplies the zero measurement itself so that the
initial render succeeds. -/
theorem claim_C9_amended_current_zero (e₁ : Option ℚ) (e₂ : Option ℕ) :
    (Builder.new e₁ e₂).current = some 0 := rfl

/-- C10: each setter mutates only its own configuration field and
leaves the cached rendered meter unchanged; consequently any sequence
of `set_*` calls without an intervening `build()` leaves the displayed
meter equal to the last rendered one. -/
theorem claim_C10_setters_frame :
    (∀ (b : Builder) (v : ℚ), (b.set_current v).current = some v ∧
       (b.set_current v).max = b.max ∧
       (b.set_current v).length = b.length ∧
       (b.set_current v).meter = b.meter) ∧
    (∀ (b : Builder) (v : ℚ), (b.set_max v).max = v ∧
       (b.set_max v).current = b.current ∧
       (b.set_max v).length = b.length ∧
       (b.set_max v).meter = b.meter) ∧
    (∀ (b : Builder) (v : ℕ), (b.set_length v).length = v ∧
       (b.set_length v).current = b.current ∧
       (b.set_length v).max = b.max ∧
       (b.set_length v).meter = b.meter) ∧
    (∀ (b : Builder) (ops : List SetOp),
       (ops.foldl applySet b).meter = b.meter) := by
  refine ⟨fun b v => ⟨rfl, rfl, rfl, rfl⟩, fun b v => ⟨rfl, rfl, rfl, rfl⟩,
    fun b v => ⟨rfl, rfl, rfl, rfl⟩, fun b ops => ?_⟩
  induction ops generalizing b with
  | nil => rfl
  | cons op rest ih => rw [List.foldl_cons, ih, applySet_meter]

end BurnoutMeter
